import Mathlib

/-!
Verification of the durable workflow executor of the merchant-onboarding
service (project-velocity).  The definitions below are a shallow embedding
of the Python source: the action-item ledger of `app/utils/job_store.py`,
the stage routing of `app/graph.py` and `app/graph_v2.py`, the consultant
node of `app/nodes/consultant.py`, the background job boundary of
`app/main.py`, the deep merge used by resume, the tool registry of
`app/core/tool_registry.py`, and the document-intelligence node of
`app/nodes/verifiers.py`.  Timestamps are modelled as naturals, Python
dictionaries as association lists, and Python exceptions as `Except`.
-/

/-- Severity of an action item (`ActionSeverity` in `app/schema.py`). -/
inductive ActionSeverity where
  | BLOCKING
  | WARNING
deriving DecidableEq, Repr

/-- Category of an action item (`ActionCategory` in `app/schema.py`). -/
inductive ActionCategory where
  | DOCUMENT
  | BANK
  | COMPLIANCE
  | WEBSITE
  | DATA
deriving DecidableEq, Repr

/-- One action item (`ActionItem` in `app/schema.py`).  `created_at` and
`resolved_at` are timestamps modelled as naturals; `id` is the short opaque
identifier. -/
structure ActionItem where
  id : String
  category : ActionCategory
  severity : ActionSeverity
  title : String := ""
  description : String := ""
  suggestion : String := ""
  field_to_update : Option String := none
  current_value : Option String := none
  required_format : Option String := none
  sample_content : Option String := none
  created_at : Nat := 0
  resolved : Bool := false
  resolved_at : Option Nat := none
deriving DecidableEq, Repr

/-- The ids stored in a ledger, in order. -/
def ledger_ids (ledger : List ActionItem) : List String :=
  ledger.map ActionItem.id

/-- `append_action_items` of `app/utils/job_store.py` (lines 101-114): the
new items are concatenated onto the stored list, with no deduplication. -/
def append_action_items (ledger new_items : List ActionItem) : List ActionItem :=
  ledger ++ new_items

/-- `mark_items_resolved` of `app/utils/job_store.py` (lines 117-139): an
item whose id is listed and whose `resolved` flag is still false gets the
resolution fact stamped; every other item is kept untouched. -/
def mark_items_resolved (ledger : List ActionItem) (item_ids : List String)
    (now : Nat) : List ActionItem :=
  ledger.map fun item =>
    if item.id ∈ item_ids ∧ item.resolved = false then
      { item with resolved := true, resolved_at := some now }
    else
      item

/-- `get_action_items` of `app/utils/job_store.py` (lines 142-159): returns
the stored list as is, filtering out resolved items unless asked to include
them.  It performs no sorting. -/
def get_action_items (ledger : List ActionItem) (include_resolved : Bool) :
    List ActionItem :=
  if include_resolved then ledger
  else ledger.filter fun item => item.resolved = false

/-- The id set used by `resume_workflow` in `app/main.py` (line 643):
Python builds `{i.get("id") for i in existing_items if i.get("id")}`, so an
empty id (falsy) is left out of the set. -/
def existing_ids (ledger : List ActionItem) : List String :=
  (ledger.map ActionItem.id).filter fun s => s ≠ ""

/-- The ledger append performed by `resume_workflow` in `app/main.py`
(lines 637-649): only items whose id is not already stored are kept
(`items_to_add`) and then `append_action_items` concatenates them.  This is
the sole call site of `append_action_items` in the repository. -/
def resume_append_items (ledger new_items : List ActionItem) :
    List ActionItem :=
  append_action_items ledger
    (new_items.filter fun i => ¬ i.id ∈ existing_ids ledger)

/-- One ledger mutation of `app/utils/job_store.py`. -/
inductive LedgerOp where
  | append_items (new_items : List ActionItem)
  | resolve (item_ids : List String) (now : Nat)

/-- Apply one ledger mutation. -/
def apply_ledger_op (ledger : List ActionItem) : LedgerOp → List ActionItem
  | LedgerOp.append_items new_items => append_action_items ledger new_items
  | LedgerOp.resolve item_ids now => mark_items_resolved ledger item_ids now

/-- Apply a sequence of ledger mutations, oldest first. -/
def apply_ledger_ops (ledger : List ActionItem) (ops : List LedgerOp) :
    List ActionItem :=
  ops.foldl apply_ledger_op ledger

/-- Forget the resolution fact of an item; two items with the same erasure
agree on every field other than `resolved` and `resolved_at`. -/
def erase_resolution (i : ActionItem) : ActionItem :=
  { i with resolved := false, resolved_at := none }

/-- The Python sort key of `consultant_fixer_node` (`app/nodes/consultant.py`
lines 138-142): `(0 if severity == "BLOCKING" else 1, created_at)`. -/
def sort_key (i : ActionItem) : Nat × Nat :=
  (if i.severity = ActionSeverity.BLOCKING then 0 else 1, i.created_at)

/-- Strict lexicographic comparison of sort keys. -/
def key_lt (a b : ActionItem) : Bool :=
  decide ((sort_key a).1 < (sort_key b).1) ||
    (decide ((sort_key a).1 = (sort_key b).1) &&
      decide ((sort_key a).2 < (sort_key b).2))

/-- Stable insertion: `x` is placed before the first element whose key is
not strictly below its own, so elements with equal keys keep their original
relative order, as Python's stable `list.sort` does. -/
def insert_sorted (x : ActionItem) : List ActionItem → List ActionItem
  | [] => [x]
  | y :: ys => if key_lt y x then y :: insert_sorted x ys else x :: y :: ys

/-- Stable sort by `sort_key`, modelling `action_items.sort(key=...)` of
`app/nodes/consultant.py`. -/
def sort_action_items : List ActionItem → List ActionItem
  | [] => []
  | x :: xs => insert_sorted x (sort_action_items xs)

/-- Output of `consultant_fixer_node` (`app/nodes/consultant.py`). -/
structure ConsultantResult where
  action_items : List ActionItem
  consultant_plan : List String
  verification_notes : List String
  status : String
  risk_score : ℚ
deriving Repr

/-- `consultant_fixer_node` of `app/nodes/consultant.py` (lines 101-162).
The LLM enrichment that runs only in production mode is an external
collaborator, passed in as the function `enrich`; counts and the risk
formula `min(1.0, 0.3 + blocking*0.2 + warning*0.1)` follow the source. -/
def consultant_fixer_node (production : Bool)
    (enrich : List ActionItem → List ActionItem)
    (error_message : Option String) (state_items : List ActionItem) :
    ConsultantResult :=
  let items := state_items
  let blocking_count :=
    (items.filter fun i => i.severity = ActionSeverity.BLOCKING).length
  let warning_count :=
    (items.filter fun i => i.severity = ActionSeverity.WARNING).length
  let correction_plan := items.map fun i => i.title
  let items2 := if production && ¬ items.isEmpty then enrich items else items
  let sorted_items := sort_action_items items2
  let summary :=
    (if blocking_count > 0 then ["blocking issues require attention"] else []) ++
      (if warning_count > 0 then ["warnings for review"] else []) ++
      (match error_message with
       | some _ => ["error recorded"]
       | none => [])
  { action_items := sorted_items
    consultant_plan := correction_plan
    verification_notes :=
      if summary.isEmpty then ["Consultant review completed"] else summary
    status := "NEEDS_REVIEW"
    risk_score :=
      min 1 ((3 : ℚ) / 10 + blocking_count * (2 / 10) + warning_count * (1 / 10)) }

/-- The nodes of the workflow graph (`app/graph.py`, `app/graph_v2.py`). -/
inductive Node where
  | input_parser_node
  | doc_intelligence_node
  | bank_verifier_node
  | web_compliance_node
  | consultant_fixer_node
  | finalizer_node
deriving DecidableEq, Repr

/-- The slice of `AgentState` (`app/schema.py`) that routing reads: the four
boolean outcome flags.  The remaining fields of the TypedDict are irrelevant
to the conditional edges. -/
structure AgentState where
  is_auth_valid : Bool := false
  is_doc_verified : Bool := false
  is_bank_verified : Bool := false
  is_website_compliant : Bool := false
deriving DecidableEq, Repr

/-- `check_auth` of `app/graph.py` (lines 31-36). -/
def check_auth (s : AgentState) : Node :=
  if s.is_auth_valid then Node.doc_intelligence_node
  else Node.consultant_fixer_node

/-- `check_docs` of `app/graph.py` (lines 38-44); in graph v1 this function
is defined but never wired to an edge. -/
def check_docs (s : AgentState) : Node :=
  if s.is_doc_verified then Node.bank_verifier_node
  else Node.consultant_fixer_node

/-- `check_bank` of `app/graph.py` (lines 46-51). -/
def check_bank (s : AgentState) : Node :=
  if s.is_bank_verified then Node.web_compliance_node
  else Node.consultant_fixer_node

/-- `check_compliance` of `app/graph.py` (lines 53-58). -/
def check_compliance (s : AgentState) : Node :=
  if s.is_website_compliant then Node.finalizer_node
  else Node.consultant_fixer_node

/-- The edges of graph v1 (`build_graph` in `app/graph.py`, lines 60-83,
the graph `app/main.py` compiles): conditional edges after the input, bank
and web-compliance nodes, an UNCONDITIONAL edge from the document node to
the bank node (`workflow.add_edge("doc_intelligence_node",
"bank_verifier_node")`), the consultant looping to the input node, and the
finalizer ending the graph (`none`). -/
def route_v1 : Node → AgentState → Option Node
  | Node.input_parser_node, s => some (check_auth s)
  | Node.doc_intelligence_node, _ => some Node.bank_verifier_node
  | Node.bank_verifier_node, s => some (check_bank s)
  | Node.web_compliance_node, s => some (check_compliance s)
  | Node.consultant_fixer_node, _ => some Node.input_parser_node
  | Node.finalizer_node, _ => none

/-- The edges of graph v2 (`build_graph` in `app/graph_v2.py`, lines
93-105): all four gates are wired as conditional edges, including
`check_docs` after the document node. -/
def route_v2 : Node → AgentState → Option Node
  | Node.input_parser_node, s => some (check_auth s)
  | Node.doc_intelligence_node, s => some (check_docs s)
  | Node.bank_verifier_node, s => some (check_bank s)
  | Node.web_compliance_node, s => some (check_compliance s)
  | Node.consultant_fixer_node, _ => some Node.input_parser_node
  | Node.finalizer_node, _ => none

/-- One execution attempt of the compiled graph v1
(`agent_app = workflow.compile(checkpointer=...,
interrupt_after=["consultant_fixer_node"])` in `app/main.py` lines 30-40).
`handlers` gives each node's state transformer; execution runs the current
node, routes, and halts right after the consultant node because it is the
declared interrupt point.  The result is the list of executed nodes, the
final state, and the pending next node (`none` when the graph ended at the
finalizer). -/
def run_attempt (handlers : Node → AgentState → AgentState) :
    Nat → Node → AgentState → List Node × AgentState × Option Node
  | 0, cur, s => ([], s, some cur)
  | fuel + 1, cur, s =>
    let s2 := handlers cur s
    if cur = Node.consultant_fixer_node then
      ([cur], s2, route_v1 cur s2)
    else
      match route_v1 cur s2 with
      | none => ([cur], s2, none)
      | some nxt =>
        let r := run_attempt handlers fuel nxt s2
        (cur :: r.1, r.2.1, r.2.2)

/-- Job lifecycle status (`JobStatus` in `app/schema.py`). -/
inductive JobStatus where
  | QUEUED
  | PROCESSING
  | NEEDS_REVIEW
  | COMPLETED
  | FAILED
deriving DecidableEq, Repr

/-- The final graph state a background task reads after `ainvoke`
(`final_state` in `app/main.py`): the fields the job boundary consumes. -/
structure FinalState where
  stage : Option String := none
  error_message : Option String := none
  action_items : List ActionItem := []
deriving DecidableEq, Repr

/-- The job record of the `jobs` table (`app/utils/job_store.py`). -/
structure Job where
  status : JobStatus := JobStatus.QUEUED
  stage : String := "INPUT"
  error_message : Option String := none
  result : Option FinalState := none
  action_items : List ActionItem := []
deriving DecidableEq, Repr

/-- `update_job` of `app/utils/job_store.py` (lines 54-98): each column is
written only when the corresponding argument is not `None`. -/
def update_job (job : Job) (status : Option JobStatus) (stage : Option String)
    (error_message : Option String) (result : Option FinalState)
    (action_items : Option (List ActionItem)) : Job :=
  { job with
    status := status.getD job.status
    stage := stage.getD job.stage
    error_message := error_message <|> job.error_message
    result := result <|> job.result
    action_items := action_items.getD job.action_items }

/-- Python truthiness of an optional string (`None` and `""` are falsy). -/
def truthy_str : Option String → Bool
  | none => false
  | some s => s ≠ ""

/-- The background task `run_onboarding_workflow` of `app/main.py` (lines
166-266).  `exec` is the outcome of running the graph: an uncaught
exception with its message, or the final state paired with the
interruption flag (`current_state.next` being nonempty).  `post` is the
outcome of the agreement-PDF and welcome-email side effects performed on
the success path before the final job update; an exception there is caught
by the same boundary handler. -/
def run_onboarding_workflow (job : Job)
    (exec : Except String (FinalState × Bool)) (post : Except String Unit) :
    Job :=
  let j1 := update_job job (some JobStatus.PROCESSING) none none none none
  match exec with
  | Except.error e =>
    update_job j1 (some JobStatus.FAILED) none (some e) none none
  | Except.ok (fs, has_next) =>
    let items := fs.action_items
    if has_next then
      update_job j1 (some JobStatus.NEEDS_REVIEW) (some (fs.stage.getD "UNKNOWN"))
        none (some fs) (some items)
    else if truthy_str fs.error_message then
      update_job j1 (some JobStatus.NEEDS_REVIEW) (some (fs.stage.getD "UNKNOWN"))
        fs.error_message (some fs) (some items)
    else
      match post with
      | Except.error e =>
        update_job j1 (some JobStatus.FAILED) none (some e) none none
      | Except.ok _ =>
        update_job j1 (some JobStatus.COMPLETED) (some "FINAL") none (some fs)
          (some items)

/-- The background closure `resume_workflow` of `app/main.py` (lines
629-694), applied to the job record after `resume_onboarding` set it to
PROCESSING (line 626).  On success it appends the filtered new items to the
stored ledger, re-reads the final ledger, and writes the job; on an
exception it marks the job FAILED with the message.  Returns the updated
job together with the updated stored ledger. -/
def resume_workflow (job : Job) (ledger : List ActionItem)
    (exec : Except String (FinalState × Bool)) : Job × List ActionItem :=
  let j1 := update_job job (some JobStatus.PROCESSING) none none none none
  match exec with
  | Except.error e =>
    (update_job j1 (some JobStatus.FAILED) none (some e) none none, ledger)
  | Except.ok (fs, has_next) =>
    let ledger2 := resume_append_items ledger fs.action_items
    let final_items := ledger2
    if has_next then
      (update_job j1 (some JobStatus.NEEDS_REVIEW) (some (fs.stage.getD "UNKNOWN"))
        none (some fs) (some final_items), ledger2)
    else if truthy_str fs.error_message then
      (update_job j1 (some JobStatus.NEEDS_REVIEW) (some (fs.stage.getD "UNKNOWN"))
        fs.error_message (some fs) (some final_items), ledger2)
    else
      (update_job j1 (some JobStatus.COMPLETED) (some "FINAL") none (some fs)
        (some final_items), ledger2)

/-- A JSON-like value of the free-form application data: `None`, a string
leaf, or a nested dictionary kept as an ordered association list, the way
CPython dictionaries preserve insertion order. -/
inductive Val where
  | vnull
  | str (s : String)
  | dict (entries : List (String × Val))

/-- `isinstance(result[key], dict)`: extract the entries when the looked-up
value is a dictionary. -/
def as_dict : Option Val → Option (List (String × Val))
  | some (Val.dict entries) => some entries
  | _ => none

/-- Ordered association-list lookup (`key in result` / `result[key]`). -/
def lookup_assoc {α : Type} : List (String × α) → String → Option α
  | [], _ => none
  | (k, v) :: rest, key => if k = key then some v else lookup_assoc rest key

/-- `result[key] = value` on an ordered dictionary: an existing key keeps
its position, a new key is appended at the end. -/
def set_key {α : Type} : List (String × α) → String → α → List (String × α)
  | [], key, v => [(key, v)]
  | (k, w) :: rest, key, v =>
    if k = key then (k, v) :: rest else (k, w) :: set_key rest key v

/-- `deep_merge` of `app/main.py` (lines 564-572).  For each update entry in
order: a `None` value is skipped, a string value is assigned, and a
dictionary value is merged recursively when the key is already bound to a
dictionary in the accumulated result, otherwise assigned.  (The recursive
merge is computed before the branch on the lookup so that the recursion is
structurally visible; when the lookup is not a dictionary its result is
unused, matching the Python `elif value is not None` assignment.) -/
def deep_merge (result : List (String × Val)) :
    List (String × Val) → List (String × Val)
  | [] => result
  | (key, value) :: rest =>
    let result2 :=
      match value with
      | Val.vnull => result
      | Val.str s => set_key result key (Val.str s)
      | Val.dict usub =>
        let bsub_opt := as_dict (lookup_assoc result key)
        let merged := Val.dict (deep_merge (bsub_opt.getD []) usub)
        if bsub_opt.isSome then set_key result key merged
        else set_key result key (Val.dict usub)
    deep_merge result2 rest

/-- Tool inputs and outputs, modelled as string dictionaries. -/
def ToolData : Type := List (String × String)
deriving instance DecidableEq for ToolData

/-- A tool implementation: Python functions that may raise are modelled as
`Except`, the error carrying the exception message `str(e)`. -/
def ToolImpl : Type := ToolData → Except String ToolData

/-- The slice of `ToolDefinition` (`app/core/contracts.py`) that
`ToolRegistry.call` reads: the optional static mock payload. -/
structure ToolDef where
  name : String
  category : String := "general"
  mock_output : Option ToolData := none

/-- The tool result contract (`ToolResult` in `app/core/contracts.py`). -/
structure ToolResult where
  tool_name : String
  success : Bool
  data : Option ToolData := none
  error : Option String := none
  execution_time_ms : Option Nat := none
  was_mocked : Bool := false

/-- `ToolRegistry` of `app/core/tool_registry.py`: registered definitions,
real implementations, mock implementations, and the global mock switch. -/
structure ToolRegistry where
  tools : List (String × ToolDef)
  impls : List (String × ToolImpl)
  mock_impls : List (String × ToolImpl)
  use_mocks : Bool := false

/-- `ToolRegistry.call` of `app/core/tool_registry.py` (lines 123-195).
`elapsed` stands for the measured wall-clock duration of the guarded block.
Every branch of the source returns a structured `ToolResult`; the broad
`except` catches any exception of the chosen implementation.  The static
`mock_output` path follows Python truthiness: a missing or empty dict falls
through to the no-mock failure. -/
def registry_call (reg : ToolRegistry) (name : String) (inputs : ToolData)
    (use_mock : Option Bool) (elapsed : Nat) : ToolResult :=
  match lookup_assoc reg.tools name with
  | none =>
    { tool_name := name, success := false
      error := some ("Tool " ++ name ++ " not found in registry") }
  | some tdef =>
    let should_mock := use_mock.getD reg.use_mocks
    let run : ToolImpl → Bool → ToolResult := fun f was_mocked =>
      match f inputs with
      | Except.ok d =>
        { tool_name := name, success := true, data := some d
          execution_time_ms := some elapsed, was_mocked := was_mocked }
      | Except.error e =>
        { tool_name := name, success := false, error := some e
          execution_time_ms := some elapsed, was_mocked := should_mock }
    if should_mock then
      match lookup_assoc reg.mock_impls name with
      | some f => run f true
      | none =>
        match tdef.mock_output with
        | some d =>
          if d.isEmpty then
            { tool_name := name, success := false
              error := some ("No mock implementation for " ++ name) }
          else
            { tool_name := name, success := true, data := some d
              execution_time_ms := some elapsed, was_mocked := true }
        | none =>
          { tool_name := name, success := false
            error := some ("No mock implementation for " ++ name) }
    else
      match lookup_assoc reg.impls name with
      | none =>
        { tool_name := name, success := false
          error := some ("No implementation for " ++ name) }
      | some f => run f false

/-- `BaseNode.call_tool` of `app/core/base_node.py` (lines 101-135): a tool
name outside the node's declared allow-list returns a structured failure
without touching the registry; otherwise the mock override defaults to the
simulation skip flag of the node and the registry is called. -/
def call_tool (available_tools : List String) (node_name : String)
    (sim_skip : Bool) (reg : ToolRegistry) (tool_name : String)
    (inputs : ToolData) (use_mock : Option Bool) (elapsed : Nat) : ToolResult :=
  if tool_name ∈ available_tools then
    let um := some (use_mock.getD sim_skip)
    registry_call reg tool_name inputs um elapsed
  else
    { tool_name := tool_name, success := false
      error := some ("Tool " ++ tool_name ++ " not in available_tools for " ++
        node_name) }

/-- The simulation flags `doc_intelligence_node` consults
(`app/utils/simulation.py`): the force-success skip for the document node,
the three failure scenarios, and the legacy `SIMULATE_DOC_FAILURE` flag
read by `should_fail_doc`. -/
structure SimFlags where
  skip_doc : Bool := false
  doc_blurry : Bool := false
  doc_failure_legacy : Bool := false
  doc_missing : Bool := false
  doc_invalid : Bool := false
deriving DecidableEq, Repr

/-- The external world `doc_intelligence_node` touches after the early
returns: whether the file exists at the path, whether Docling extraction
succeeds (with the exception message otherwise), how many keywords were
found and how long the extracted text is. -/
structure DocEnv where
  file_exists : Bool := true
  extract_ok : Bool := true
  extract_error : String := ""
  found_keywords : Nat := 0
  text_len : Nat := 0
deriving DecidableEq, Repr

/-- The partial state update returned by `doc_intelligence_node`
(`app/nodes/verifiers.py`). -/
structure DocResult where
  is_doc_verified : Bool
  action_items : List ActionItem
  error_message : Option String := none
  verification_notes : List String := []
  missing_artifacts : List String := []
deriving DecidableEq, Repr

/-- `create_action_item` of `app/nodes/verifiers.py` (lines 20-43); the
fresh short id and the creation timestamp that Python generates are passed
in explicitly. -/
def create_action_item (fresh_id : String) (now : Nat)
    (category : ActionCategory) (severity : ActionSeverity)
    (title description suggestion : String)
    (field_to_update current_value required_format : Option String) :
    ActionItem :=
  { id := fresh_id, category := category, severity := severity
    title := title, description := description, suggestion := suggestion
    field_to_update := field_to_update, current_value := current_value
    required_format := required_format, sample_content := none
    created_at := now, resolved := false, resolved_at := none }

/-- Python falsiness of the optional `documents_path` (`None` or `""`). -/
def path_falsy : Option String → Bool
  | none => true
  | some s => s = ""

/-- `doc_intelligence_node` of `app/nodes/verifiers.py` (lines 46-207),
branch for branch: simulation skip, the three simulated failures (the
blurry branch also honours the legacy flag), then — with no simulation
active — a missing/empty `documents_path` passes with a note, a
non-existent file fails, and otherwise the OCR heuristic decides
(at least two keywords or more than 50 characters of text). -/
def doc_intelligence_node (simf : SimFlags) (env : DocEnv)
    (doc_path : Option String) (fresh_id : String) (now : Nat) : DocResult :=
  if simf.skip_doc then
    { is_doc_verified := true, action_items := []
      verification_notes := ["Document checks skipped (simulation)"] }
  else if simf.doc_blurry || simf.doc_failure_legacy then
    { is_doc_verified := false
      action_items := [create_action_item fresh_id now ActionCategory.DOCUMENT
        ActionSeverity.BLOCKING "Upload clearer KYC document (Simulated)"
        "The document is blurry or has low resolution." ""
        (some "documents_path") doc_path (some "PDF, PNG, or JPG.")]
      error_message := some "Document OCR failed: Image too blurry (Simulated)"
      verification_notes := ["SIMULATION: Document blurry/OCR failure"]
      missing_artifacts := ["Clear KYC Document"] }
  else if simf.doc_missing then
    { is_doc_verified := false
      action_items := [create_action_item fresh_id now ActionCategory.DOCUMENT
        ActionSeverity.BLOCKING "Upload KYC document (Simulated)"
        "No document was found at the specified path." ""
        (some "documents_path") doc_path (some "PDF, PNG, or JPG.")]
      error_message := some "Document not found (Simulated)"
      verification_notes := ["SIMULATION: Document file missing"]
      missing_artifacts := ["KYC Document"] }
  else if simf.doc_invalid then
    { is_doc_verified := false
      action_items := [create_action_item fresh_id now ActionCategory.DOCUMENT
        ActionSeverity.BLOCKING "Upload valid KYC document (Simulated)"
        "The document is missing required fields." ""
        (some "documents_path") doc_path
        (some "Complete PAN card or Aadhaar.")]
      error_message := some "Document missing required fields (Simulated)"
      verification_notes := ["SIMULATION: Document invalid/incomplete"]
      missing_artifacts := ["Valid KYC Document"] }
  else if path_falsy doc_path then
    { is_doc_verified := true, action_items := []
      verification_notes := ["No document provided in state, skipping extraction."] }
  else if env.file_exists = false then
    { is_doc_verified := false
      action_items := [create_action_item fresh_id now ActionCategory.DOCUMENT
        ActionSeverity.BLOCKING "Upload KYC document"
        "Document file not found at the specified path." ""
        (some "documents_path") doc_path (some "PDF, PNG, or JPG.")]
      error_message := some "Document file not found at path"
      missing_artifacts := ["Uploaded Document"] }
  else if env.extract_ok then
    if env.found_keywords ≥ 2 || decide (env.text_len > 50) then
      { is_doc_verified := true, action_items := []
        verification_notes := ["Document verified."] }
    else
      { is_doc_verified := false
        action_items := [create_action_item fresh_id now ActionCategory.DOCUMENT
          ActionSeverity.BLOCKING "Upload clearer KYC document"
          "OCR confidence is too low." ""
          (some "documents_path") doc_path (some "PDF, PNG, or JPG.")]
        error_message :=
          some "Document unclear or missing security features (Low OCR Confidence)."
        verification_notes := ["Insufficient keywords found."]
        missing_artifacts := ["Clear/Valid KYC Document"] }
  else
    { is_doc_verified := false
      action_items := [create_action_item fresh_id now ActionCategory.DOCUMENT
        ActionSeverity.BLOCKING "Upload readable KYC document"
        "Failed to process the uploaded document." ""
        (some "documents_path") doc_path (some "PDF, PNG, or JPG.")]
      error_message := some ("Document processing error: " ++ env.extract_error)
      missing_artifacts := ["Readable KYC Document"] }

/-- A sample blocking item used in concrete instantiations. -/
def item_a : ActionItem :=
  { id := "a1", category := ActionCategory.DOCUMENT
    severity := ActionSeverity.BLOCKING, title := "upload document" }

/-- A sample unresolved WARNING item created at time 1. -/
def item_w : ActionItem :=
  { id := "w1", category := ActionCategory.WEBSITE
    severity := ActionSeverity.WARNING, title := "add refund policy"
    created_at := 1 }

/-- A sample BLOCKING item created later, at time 2. -/
def item_b : ActionItem :=
  { id := "b2", category := ActionCategory.BANK
    severity := ActionSeverity.BLOCKING, title := "fix bank account"
    created_at := 2 }

/-- C1 counterexample: in graph v1 — the graph `app/main.py` compiles — the
document stage is not gated: with `is_doc_verified = false` the router still
advances from the document node to the bank node, not to the consultant. -/
theorem c1_docs_edge_unconditional :
    route_v1 Node.doc_intelligence_node
        { is_doc_verified := false } = some Node.bank_verifier_node ∧
    (some Node.bank_verifier_node ≠ some Node.consultant_fixer_node) := by
  exact ⟨rfl, by decide⟩

/-- C1 (amended): in graph v1 the INPUT, BANK and COMPLIANCE gates route to
the consultant whenever their flag is false and advance when it is true,
but the DOCS stage advances to BANK unconditionally; in graph v2 all four
gates route to the consultant on a false flag. -/
theorem c1_gated_stage_routing (s : AgentState) :
    (s.is_auth_valid = false →
      route_v1 Node.input_parser_node s = some Node.consultant_fixer_node) ∧
    (s.is_auth_valid = true →
      route_v1 Node.input_parser_node s = some Node.doc_intelligence_node) ∧
    route_v1 Node.doc_intelligence_node s = some Node.bank_verifier_node ∧
    (s.is_bank_verified = false →
      route_v1 Node.bank_verifier_node s = some Node.consultant_fixer_node) ∧
    (s.is_bank_verified = true →
      route_v1 Node.bank_verifier_node s = some Node.web_compliance_node) ∧
    (s.is_website_compliant = false →
      route_v1 Node.web_compliance_node s = some Node.consultant_fixer_node) ∧
    (s.is_website_compliant = true →
      route_v1 Node.web_compliance_node s = some Node.finalizer_node) ∧
    (s.is_auth_valid = false →
      route_v2 Node.input_parser_node s = some Node.consultant_fixer_node) ∧
    (s.is_doc_verified = false →
      route_v2 Node.doc_intelligence_node s = some Node.consultant_fixer_node) ∧
    (s.is_bank_verified = false →
      route_v2 Node.bank_verifier_node s = some Node.consultant_fixer_node) ∧
    (s.is_website_compliant = false →
      route_v2 Node.web_compliance_node s = some Node.consultant_fixer_node) := by
  obtain ⟨a, d, b, w⟩ := s
  revert a d b w
  decide

/-- C1 witness: at the all-false state every gated v1 stage and the v2
document stage route to the consultant. -/
theorem c1_gated_stage_routing_witness :
    route_v1 Node.input_parser_node {} = some Node.consultant_fixer_node ∧
    route_v2 Node.doc_intelligence_node {} = some Node.consultant_fixer_node :=
  ⟨(c1_gated_stage_routing {}).1 rfl,
    (c1_gated_stage_routing {}).2.2.2.2.2.2.2.2.1 rfl⟩

/-- C4: resolving ids that are absent from the ledger leaves it unchanged
(the function is total, so no error is raised), and resolving is
idempotent — a second `mark_items_resolved` call with the same ids and a
later timestamp changes nothing, so the first resolution timestamp is
kept. -/
theorem c4_resolve_noop_idempotent (ledger : List ActionItem)
    (item_ids : List String) (t1 t2 : Nat) :
    ((∀ s ∈ item_ids, ¬ s ∈ ledger_ids ledger) →
      mark_items_resolved ledger item_ids t1 = ledger) ∧
    mark_items_resolved (mark_items_resolved ledger item_ids t1) item_ids t2 =
      mark_items_resolved ledger item_ids t1 := by
  constructor
  · intro h
    unfold mark_items_resolved
    have hp : ∀ item ∈ ledger,
        (if item.id ∈ item_ids ∧ item.resolved = false then
          { item with resolved := true, resolved_at := some t1 }
        else item) = item := by
      intro item hm
      have hni : ¬ item.id ∈ item_ids := fun hin =>
        h item.id hin (List.mem_map_of_mem ActionItem.id hm)
      simp [hni]
    calc ledger.map _ = ledger.map id := List.map_congr_left hp
      _ = ledger := ledger.map_id
  · unfold mark_items_resolved
    rw [List.map_map]
    apply List.map_congr_left
    intro item _
    by_cases h1 : item.id ∈ item_ids ∧ item.resolved = false
    · simp [h1]
    · simp [h1]

/-- C4 witness: resolving the unknown id `zz` leaves a one-item ledger
unchanged, and resolving `a1` twice equals resolving it once. -/
theorem c4_resolve_noop_idempotent_witness :
    ((∀ s ∈ ["zz"], ¬ s ∈ ledger_ids [item_a]) ∧
      mark_items_resolved [item_a] ["zz"] 5 = [item_a]) ∧
    mark_items_resolved (mark_items_resolved [item_a] ["a1"] 5) ["a1"] 9 =
      mark_items_resolved [item_a] ["a1"] 5 := by
  refine ⟨⟨by decide, (c4_resolve_noop_idempotent [item_a] ["zz"] 5 9).1 (by decide)⟩,
    (c4_resolve_noop_idempotent [item_a] ["a1"] 5 9).2⟩

/-- C10: with no simulation flag active and a missing or empty
`documents_path`, the document stage passes: `is_doc_verified` is true and
no action item is emitted. -/
theorem c10_missing_document_passes (env : DocEnv) (doc_path : Option String)
    (fresh_id : String) (now : Nat) (hpath : path_falsy doc_path = true) :
    (doc_intelligence_node {} env doc_path fresh_id now).is_doc_verified = true ∧
    (doc_intelligence_node {} env doc_path fresh_id now).action_items = [] := by
  unfold doc_intelligence_node
  simp [hpath]

/-- C10 witness: concrete evaluation at an absent `documents_path`. -/
theorem c10_missing_document_passes_witness :
    path_falsy none = true ∧
    (doc_intelligence_node {} {} none "f1" 7).is_doc_verified = true ∧
    (doc_intelligence_node {} {} none "f1" 7).action_items = [] :=
  ⟨rfl, (c10_missing_document_passes {} none "f1" 7 rfl).1,
    (c10_missing_document_passes {} none "f1" 7 rfl).2⟩

/-- C6: under any sequence of ledger appends and resolutions, an item
present in the ledger is never removed, and a surviving item with its id
differs from it at most in the resolution fields `resolved` and
`resolved_at`. -/
theorem c6_ledger_item_preserved (ops : List LedgerOp)
    (ledger : List ActionItem) (item : ActionItem) (h : item ∈ ledger) :
    ∃ j, j ∈ apply_ledger_ops ledger ops ∧ j.id = item.id ∧
      erase_resolution j = erase_resolution item := by
  induction ops generalizing ledger item with
  | nil => exact ⟨item, h, rfl, rfl⟩
  | cons op rest ih =>
    have step : ∃ j, j ∈ apply_ledger_op ledger op ∧ j.id = item.id ∧
        erase_resolution j = erase_resolution item := by
      cases op with
      | append_items new_items =>
        exact ⟨item, List.mem_append_left _ h, rfl, rfl⟩
      | resolve item_ids now =>
        refine ⟨if item.id ∈ item_ids ∧ item.resolved = false then
            { item with resolved := true, resolved_at := some now }
          else item, ?_, ?_, ?_⟩
        · exact List.mem_map_of_mem _ h
        · by_cases hc : item.id ∈ item_ids ∧ item.resolved = false <;> simp [hc]
        · by_cases hc : item.id ∈ item_ids ∧ item.resolved = false <;>
            simp [hc, erase_resolution]
    obtain ⟨j1, hj1, hid1, her1⟩ := step
    obtain ⟨j, hj, hid, her⟩ := ih (apply_ledger_op ledger op) j1 hj1
    exact ⟨j, hj, hid.trans hid1, her.trans her1⟩

/-- C6 witness: the item `a1` survives an append of a new item followed by
its own resolution, unchanged outside the resolution fields. -/
theorem c6_ledger_item_preserved_witness :
    item_a ∈ [item_a] ∧
    ∃ j, j ∈ apply_ledger_ops [item_a]
        [LedgerOp.append_items [item_b], LedgerOp.resolve ["a1"] 3] ∧
      j.id = item_a.id ∧ erase_resolution j = erase_resolution item_a :=
  ⟨List.mem_singleton_self _,
    c6_ledger_item_preserved _ _ _ (List.mem_singleton_self _)⟩

/-- C2: through the repository's only append pathway (the id filter of
`resume_workflow` composed with `append_action_items`), appending a batch
whose ids may overlap the stored ledger yields a ledger with one item per
distinct id of the union: overlapping ids are dropped, every stored item
survives untouched, and no id is duplicated.  Hypotheses: the stored ids
and the batch ids are each duplicate-free and the batch ids are nonempty,
which holds for the generated short uuids. -/
theorem c2_resume_append_no_duplicates (ledger new_items : List ActionItem)
    (h1 : (ledger_ids ledger).Nodup) (h2 : (ledger_ids new_items).Nodup)
    (h3 : ∀ i ∈ new_items, i.id ≠ "") :
    (ledger_ids (resume_append_items ledger new_items)).Nodup ∧
    (∀ s, s ∈ ledger_ids (resume_append_items ledger new_items) ↔
      s ∈ ledger_ids ledger ∨ s ∈ ledger_ids new_items) ∧
    (∀ s, (s ∈ ledger_ids ledger ∨ s ∈ ledger_ids new_items) →
      (ledger_ids (resume_append_items ledger new_items)).count s = 1) ∧
    (∀ i ∈ ledger, i ∈ resume_append_items ledger new_items) := by
  have hexist : ∀ s, s ≠ "" → (s ∈ existing_ids ledger ↔ s ∈ ledger_ids ledger) := by
    intro s hs
    simp [existing_ids, ledger_ids, List.mem_filter, hs]
  have heq : ledger_ids (resume_append_items ledger new_items) =
      ledger_ids ledger ++
        ledger_ids (new_items.filter fun i => ¬ i.id ∈ existing_ids ledger) := by
    simp [resume_append_items, append_action_items, ledger_ids]
  have hsub : (ledger_ids
      (new_items.filter fun i => ¬ i.id ∈ existing_ids ledger)).Sublist
      (ledger_ids new_items) :=
    List.Sublist.map _ (List.filter_sublist _)
  have hmemf : ∀ s, s ∈ ledger_ids
      (new_items.filter fun i => ¬ i.id ∈ existing_ids ledger) ↔
      ∃ i ∈ new_items, ¬ i.id ∈ existing_ids ledger ∧ i.id = s := by
    intro s
    simp [ledger_ids, List.mem_filter]
    constructor
    · rintro ⟨i, ⟨hi, hni⟩, hs⟩
      exact ⟨i, hi, hni, hs⟩
    · rintro ⟨i, hi, hni, hs⟩
      exact ⟨i, ⟨hi, hni⟩, hs⟩
  have hmem : ∀ s, s ∈ ledger_ids (resume_append_items ledger new_items) ↔
      s ∈ ledger_ids ledger ∨ s ∈ ledger_ids new_items := by
    intro s
    rw [heq, List.mem_append]
    constructor
    · rintro (hl | hf)
      · exact Or.inl hl
      · obtain ⟨i, hi, _, hs⟩ := (hmemf s).1 hf
        exact Or.inr (hs ▸ List.mem_map_of_mem _ hi)
    · rintro (hl | hr)
      · exact Or.inl hl
      · by_cases hla : s ∈ ledger_ids ledger
        · exact Or.inl hla
        · obtain ⟨i, hi, hs⟩ := List.mem_map.1 hr
          refine Or.inr ((hmemf s).2 ⟨i, hi, ?_, hs⟩)
          intro hin
          exact hla (hs ▸ (hexist i.id (h3 i hi)).1 hin)
  have hnd : (ledger_ids (resume_append_items ledger new_items)).Nodup := by
    rw [heq, List.nodup_append]
    refine ⟨h1, h2.sublist hsub, ?_⟩
    intro s hsl hsf
    obtain ⟨i, hi, hni, hs⟩ := (hmemf s).1 hsf
    exact hni ((hexist i.id (h3 i hi)).2 (hs ▸ hsl))
  refine ⟨hnd, hmem, ?_, ?_⟩
  · intro s hs
    exact List.count_eq_one_of_mem hnd ((hmem s).2 hs)
  · intro i hi
    exact List.mem_append_left _ hi

/-- C2 witness: re-submitting the stored item `a1` together with the new
item `b2` stores `b2` once and drops the duplicate of `a1`. -/
theorem c2_resume_append_no_duplicates_witness :
    (ledger_ids [item_a]).Nodup ∧ (ledger_ids [item_a, item_b]).Nodup ∧
    (ledger_ids (resume_append_items [item_a] [item_a, item_b])).Nodup ∧
    (ledger_ids (resume_append_items [item_a] [item_a, item_b])).count "a1" = 1 ∧
    (ledger_ids (resume_append_items [item_a] [item_a, item_b])).count "b2" = 1 := by
  have h := c2_resume_append_no_duplicates [item_a] [item_a, item_b]
    (by decide) (by decide) (by decide)
  exact ⟨by decide, by decide, h.1, h.2.2.1 "a1" (Or.inl (by decide)),
    h.2.2.1 "b2" (Or.inr (by decide))⟩

/-- C9: an exception escaping workflow execution — during `submit`'s
background run, during the success-path side effects, or during `resume` —
is converted at the job boundary into status FAILED with the exception
message stored, and a job left FAILED by either boundary always carries an
error message (the ok branches produce NEEDS_REVIEW or COMPLETED, never
FAILED). -/
theorem c9_failed_carries_message (job : Job)
    (exec : Except String (FinalState × Bool)) (post : Except String Unit)
    (ledger : List ActionItem) :
    (∀ e, exec = Except.error e →
      (run_onboarding_workflow job exec post).status = JobStatus.FAILED ∧
      (run_onboarding_workflow job exec post).error_message = some e) ∧
    (∀ fs e, exec = Except.ok (fs, false) →
      truthy_str fs.error_message = false → post = Except.error e →
      (run_onboarding_workflow job exec post).status = JobStatus.FAILED ∧
      (run_onboarding_workflow job exec post).error_message = some e) ∧
    (∀ e, exec = Except.error e →
      (resume_workflow job ledger exec).1.status = JobStatus.FAILED ∧
      (resume_workflow job ledger exec).1.error_message = some e) ∧
    ((run_onboarding_workflow job exec post).status = JobStatus.FAILED →
      (run_onboarding_workflow job exec post).error_message ≠ none) ∧
    ((resume_workflow job ledger exec).1.status = JobStatus.FAILED →
      (resume_workflow job ledger exec).1.error_message ≠ none) := by
  refine ⟨?_, ?_, ?_, ?_, ?_⟩
  · rintro e rfl
    simp [run_onboarding_workflow, update_job]
  · rintro fs e rfl ht rfl
    simp [run_onboarding_workflow, update_job, ht]
  · rintro e rfl
    simp [resume_workflow, update_job]
  · match exec with
    | Except.error e => simp [run_onboarding_workflow, update_job]
    | Except.ok (fs, has_next) =>
      cases has_next with
      | true => simp [run_onboarding_workflow, update_job]
      | false =>
        cases ht : truthy_str fs.error_message with
        | true => simp [run_onboarding_workflow, update_job, ht]
        | false =>
          match post with
          | Except.error e => simp [run_onboarding_workflow, update_job, ht]
          | Except.ok _ => simp [run_onboarding_workflow, update_job, ht]
  · match exec with
    | Except.error e => simp [resume_workflow, update_job]
    | Except.ok (fs, has_next) =>
      cases has_next with
      | true => simp [resume_workflow, update_job]
      | false =>
        cases ht : truthy_str fs.error_message with
        | true => simp [resume_workflow, update_job, ht]
        | false => simp [resume_workflow, update_job, ht]

/-- C9 witness: a concrete exception message is preserved by both
boundaries, and the post-side-effect exception path also fails the job. -/
theorem c9_failed_carries_message_witness :
    ((run_onboarding_workflow {} (Except.error "boom") (Except.ok ())).status =
      JobStatus.FAILED ∧
    (run_onboarding_workflow {} (Except.error "boom") (Except.ok ())).error_message =
      some "boom") ∧
    ((run_onboarding_workflow {} (Except.ok ({}, false))
        (Except.error "pdf failed")).status = JobStatus.FAILED ∧
    (run_onboarding_workflow {} (Except.ok ({}, false))
        (Except.error "pdf failed")).error_message = some "pdf failed") ∧
    ((resume_workflow {} [] (Except.error "crash")).1.status = JobStatus.FAILED ∧
    (resume_workflow {} [] (Except.error "crash")).1.error_message = some "crash") :=
  ⟨(c9_failed_carries_message {} (Except.error "boom") (Except.ok ()) []).1
      "boom" rfl,
    (c9_failed_carries_message {} (Except.ok ({}, false))
      (Except.error "pdf failed") []).2.1 {} "pdf failed" rfl rfl rfl,
    (c9_failed_carries_message {} (Except.error "crash") (Except.ok ()) []).2.2.1
      "crash" rfl⟩

/-- Setting a key leaves every other key's binding unchanged. -/
theorem lookup_set_key_ne {α : Type} (m : List (String × α)) (key k : String)
    (v : α) (h : key ≠ k) :
    lookup_assoc (set_key m key v) k = lookup_assoc m k := by
  induction m with
  | nil => simp [set_key, lookup_assoc, h]
  | cons hd tl ih =>
    obtain ⟨k0, w0⟩ := hd
    by_cases hk0 : k0 = key
    · subst hk0
      simp [set_key, lookup_assoc, h]
    · simp [set_key, lookup_assoc, hk0, ih]

/-- Re-assigning a key to the value it already holds is the identity. -/
theorem set_key_lookup_eq {α : Type} (m : List (String × α)) (key : String)
    (v : α) (h : lookup_assoc m key = some v) : set_key m key v = m := by
  induction m with
  | nil => simp [lookup_assoc] at h
  | cons hd tl ih =>
    obtain ⟨k0, w0⟩ := hd
    by_cases hk0 : k0 = key
    · subst hk0
      simp [lookup_assoc] at h
      simp [set_key, h]
    · simp [lookup_assoc, hk0] at h
      simp [set_key, hk0, ih h]

/-- Unfolding: merging an empty update dictionary changes nothing. -/
theorem deep_merge_nil (base : List (String × Val)) : deep_merge base [] = base := by
  rw [deep_merge]

/-- Unfolding: a `None` update value is skipped. -/
theorem deep_merge_cons_vnull (base rest : List (String × Val)) (key : String) :
    deep_merge base ((key, Val.vnull) :: rest) = deep_merge base rest := by
  rw [deep_merge.eq_def]

/-- Unfolding: a string update value is assigned. -/
theorem deep_merge_cons_str (base rest : List (String × Val)) (key s : String) :
    deep_merge base ((key, Val.str s) :: rest) =
      deep_merge (set_key base key (Val.str s)) rest := by
  rw [deep_merge.eq_def]

/-- Unfolding: a dictionary update value merges recursively when the key is
bound to a dictionary, and is assigned otherwise. -/
theorem deep_merge_cons_dict (base rest usub : List (String × Val))
    (key : String) :
    deep_merge base ((key, Val.dict usub) :: rest) =
      deep_merge
        (if (as_dict (lookup_assoc base key)).isSome then
          set_key base key
            (Val.dict (deep_merge ((as_dict (lookup_assoc base key)).getD []) usub))
        else set_key base key (Val.dict usub)) rest := by
  rw [deep_merge.eq_def]

/-- Unfolding: the recursive-merge branch, when the key is bound to a
dictionary. -/
theorem deep_merge_cons_dict_hit (base rest usub bsub : List (String × Val))
    (key : String) (h : lookup_assoc base key = some (Val.dict bsub)) :
    deep_merge base ((key, Val.dict usub) :: rest) =
      deep_merge (set_key base key (Val.dict (deep_merge bsub usub))) rest := by
  rw [deep_merge_cons_dict, h]
  simp [as_dict]

/-- A key that the update dictionary does not mention keeps its binding
through `deep_merge`. -/
theorem deep_merge_absent_key (updates : List (String × Val)) :
    ∀ (base : List (String × Val)) (k : String),
      ¬ k ∈ updates.map Prod.fst →
      lookup_assoc (deep_merge base updates) k = lookup_assoc base k := by
  induction updates with
  | nil =>
    intro base k _
    rw [deep_merge_nil]
  | cons hd rest ih =>
    intro base k hk
    obtain ⟨key, value⟩ := hd
    have hne : key ≠ k := by
      intro h
      exact hk (by simp [h])
    have hrest : ¬ k ∈ rest.map Prod.fst := by
      intro h
      exact hk (by simp [h])
    cases value with
    | vnull => rw [deep_merge_cons_vnull, ih base k hrest]
    | str s =>
      rw [deep_merge_cons_str, ih _ k hrest, lookup_set_key_ne base key k _ hne]
    | dict usub =>
      rw [deep_merge_cons_dict]
      by_cases habs : (as_dict (lookup_assoc base key)).isSome = true
      · rw [if_pos habs, ih _ k hrest, lookup_set_key_ne base key k _ hne]
      · rw [if_neg habs, ih _ k hrest, lookup_set_key_ne base key k _ hne]

/-- C5 (amended): resume's `deep_merge` keeps every key the update does not
mention, merges nested dictionaries recursively field by field, skips `None`
update values, and leaves an existing dictionary unchanged when the nested
update dictionary is empty.  (Empty-string leaves, by contrast, do
overwrite — see the counterexample.) -/
theorem c5_deep_merge_semantics (base bsub usub updates : List (String × Val))
    (k : String) :
    (¬ k ∈ updates.map Prod.fst →
      lookup_assoc (deep_merge base updates) k = lookup_assoc base k) ∧
    deep_merge base [(k, Val.vnull)] = base ∧
    (lookup_assoc base k = some (Val.dict bsub) →
      deep_merge base [(k, Val.dict usub)] =
        set_key base k (Val.dict (deep_merge bsub usub))) ∧
    (lookup_assoc base k = some (Val.dict bsub) →
      deep_merge base [(k, Val.dict [])] = base) := by
  refine ⟨deep_merge_absent_key updates base k, ?_, ?_, ?_⟩
  · rw [deep_merge_cons_vnull, deep_merge_nil]
  · intro h
    rw [deep_merge_cons_dict_hit base [] usub bsub k h, deep_merge_nil]
  · intro h
    rw [deep_merge_cons_dict_hit base [] [] bsub k h, deep_merge_nil,
      deep_merge_nil, set_key_lookup_eq base k _ h]

/-- A sample nested application-data record. -/
def sample_base : List (String × Val) :=
  [("a", Val.dict [("x", Val.str "1")]), ("b", Val.str "2")]

/-- A sample partial update touching only the nested record under `a`. -/
def sample_updates : List (String × Val) :=
  [("a", Val.dict [("y", Val.str "3")])]

/-- C5 witness: on a concrete record, untouched keys survive, a `None`
update is ignored, and an empty nested-dictionary update changes nothing. -/
theorem c5_deep_merge_semantics_witness :
    (¬ "b" ∈ sample_updates.map Prod.fst) ∧
    lookup_assoc (deep_merge sample_base sample_updates) "b" =
      lookup_assoc sample_base "b" ∧
    deep_merge sample_base [("b", Val.vnull)] = sample_base ∧
    lookup_assoc sample_base "a" = some (Val.dict [("x", Val.str "1")]) ∧
    deep_merge sample_base [("a", Val.dict [])] = sample_base := by
  have h1 : ¬ "b" ∈ sample_updates.map Prod.fst := by
    simp [sample_updates]
  have h4 : lookup_assoc sample_base "a" = some (Val.dict [("x", Val.str "1")]) := by
    simp [sample_base, lookup_assoc]
  exact ⟨h1,
    (c5_deep_merge_semantics sample_base [] [] sample_updates "b").1 h1,
    (c5_deep_merge_semantics sample_base [] [] sample_updates "b").2.1,
    h4,
    (c5_deep_merge_semantics sample_base [("x", Val.str "1")] []
      sample_updates "a").2.2.2 h4⟩

/-- C5 counterexample: an empty-string update value is NOT ignored — it
overwrites the prior value, because `deep_merge` only skips `None`
(`elif value is not None` is true for `""`). -/
theorem c5_empty_string_overwrites :
    deep_merge [("a", Val.str "x")] [("a", Val.str "")] = [("a", Val.str "")] ∧
    lookup_assoc (deep_merge [("a", Val.str "x")] [("a", Val.str "")]) "a" ≠
      lookup_assoc [("a", Val.str "x")] "a" := by
  have he : deep_merge [("a", Val.str "x")] [("a", Val.str "")] =
      [("a", Val.str "")] := by
    rw [deep_merge_cons_str, deep_merge_nil]
    simp [set_key]
  refine ⟨he, ?_⟩
  rw [he]
  simp [lookup_assoc]

/-- `key_lt` in propositional form. -/
theorem key_lt_iff (a b : ActionItem) :
    key_lt a b = true ↔ ((sort_key a).1 < (sort_key b).1 ∨
      ((sort_key a).1 = (sort_key b).1 ∧ (sort_key a).2 < (sort_key b).2)) := by
  simp [key_lt]

/-- The strict key order is asymmetric. -/
theorem key_lt_asymm (a b : ActionItem) (h : key_lt a b = true) :
    key_lt b a = false := by
  rw [← Bool.not_eq_true, key_lt_iff]
  rw [key_lt_iff] at h
  omega

/-- Equal keys are never strictly ordered. -/
theorem key_lt_irrefl_of_eq (a b : ActionItem) (h : sort_key a = sort_key b) :
    key_lt a b = false := by
  rw [← Bool.not_eq_true, key_lt_iff, h]
  omega

/-- The reflexive complement of the strict key order is transitive. -/
theorem key_lt_le_trans (a b c : ActionItem) (h1 : key_lt b a = false)
    (h2 : key_lt c b = false) : key_lt c a = false := by
  rw [← Bool.not_eq_true, key_lt_iff] at h1 h2 ⊢
  omega

/-- Stable insertion permutes the element onto the list. -/
theorem insert_sorted_perm (x : ActionItem) (l : List ActionItem) :
    (insert_sorted x l).Perm (x :: l) := by
  induction l with
  | nil => exact List.Perm.refl _
  | cons y ys ih =>
    by_cases h : key_lt y x = true
    · simp only [insert_sorted, h, if_true]
      exact (ih.cons y).trans (List.Perm.swap x y ys)
    · simp only [insert_sorted, h, if_false]
      exact List.Perm.refl _

/-- The stable sort permutes its input. -/
theorem sort_action_items_perm (l : List ActionItem) :
    (sort_action_items l).Perm l := by
  induction l with
  | nil => exact List.Perm.refl _
  | cons x xs ih =>
    exact (insert_sorted_perm x (sort_action_items xs)).trans (ih.cons x)

/-- Unfolding of stable insertion when the head is strictly below. -/
theorem insert_sorted_cons_lt (x y : ActionItem) (ys : List ActionItem)
    (h : key_lt y x = true) :
    insert_sorted x (y :: ys) = y :: insert_sorted x ys := by
  simp [insert_sorted, h]

/-- Unfolding of stable insertion when the head is not strictly below. -/
theorem insert_sorted_cons_ge (x y : ActionItem) (ys : List ActionItem)
    (h : key_lt y x = false) :
    insert_sorted x (y :: ys) = x :: y :: ys := by
  simp [insert_sorted, h]

/-- Stable insertion preserves sortedness. -/
theorem insert_sorted_pairwise (x : ActionItem) (l : List ActionItem)
    (h : List.Pairwise (fun a b => key_lt b a = false) l) :
    List.Pairwise (fun a b => key_lt b a = false) (insert_sorted x l) := by
  induction l with
  | nil => simp [insert_sorted]
  | cons y ys ih =>
    rw [List.pairwise_cons] at h
    obtain ⟨h1, h2⟩ := h
    by_cases hk : key_lt y x = true
    · rw [insert_sorted_cons_lt x y ys hk, List.pairwise_cons]
      refine ⟨?_, ih h2⟩
      intro z hz
      rcases List.mem_cons.1 (((insert_sorted_perm x ys).mem_iff).1 hz) with hzx | hzy
      · subst hzx
        exact key_lt_asymm y z hk
      · exact h1 z hzy
    · have hkf : key_lt y x = false := Bool.eq_false_iff.mpr hk
      rw [insert_sorted_cons_ge x y ys hkf, List.pairwise_cons]
      refine ⟨?_, List.pairwise_cons.2 ⟨h1, h2⟩⟩
      intro z hz
      rcases List.mem_cons.1 hz with hzy | hzys
      · subst hzy
        exact hkf
      · exact key_lt_le_trans x y z hkf (h1 z hzys)

/-- The stable sort yields a list sorted by the key order. -/
theorem sort_action_items_pairwise (l : List ActionItem) :
    List.Pairwise (fun a b => key_lt b a = false) (sort_action_items l) := by
  induction l with
  | nil => simp [sort_action_items]
  | cons x xs ih => exact insert_sorted_pairwise x (sort_action_items xs) ih

/-- Stability of the insertion step: the subsequence of any fixed key is
either untouched or gains the inserted element at its front. -/
theorem insert_sorted_filter_key (x : ActionItem) (l : List ActionItem)
    (k : Nat × Nat) :
    (insert_sorted x l).filter (fun i => decide (sort_key i = k)) =
      if sort_key x = k then
        x :: l.filter (fun i => decide (sort_key i = k))
      else l.filter (fun i => decide (sort_key i = k)) := by
  induction l with
  | nil => by_cases hx : sort_key x = k <;> simp [insert_sorted, hx]
  | cons y ys ih =>
    by_cases hk : key_lt y x = true
    · have hy : sort_key x = k → ¬ sort_key y = k := by
        intro hxk hyk
        have hirr : key_lt y x = false :=
          key_lt_irrefl_of_eq y x (hyk.trans hxk.symm)
        rw [hirr] at hk
        cases hk
      rw [insert_sorted_cons_lt x y ys hk, List.filter_cons, List.filter_cons]
      by_cases hx : sort_key x = k
      · simp [ih, hx, hy hx]
      · by_cases hyk : sort_key y = k <;> simp [ih, hx, hyk]
    · have hkf : key_lt y x = false := Bool.eq_false_iff.mpr hk
      rw [insert_sorted_cons_ge x y ys hkf, List.filter_cons]
      by_cases hx : sort_key x = k <;> simp [hx]

/-- The stable sort preserves the relative order of items with equal keys:
its equal-key subsequences coincide with those of the input. -/
theorem sort_action_items_stable (l : List ActionItem) (k : Nat × Nat) :
    (sort_action_items l).filter (fun i => decide (sort_key i = k)) =
      l.filter (fun i => decide (sort_key i = k)) := by
  induction l with
  | nil => simp [sort_action_items]
  | cons x xs ih =>
    simp only [sort_action_items, insert_sorted_filter_key, List.filter_cons]
    by_cases hx : sort_key x = k <;> simp [hx, ih]

/-- C3 (amended): the listing operation `get_action_items` itself does not
sort — it returns the stored order, filtering resolved items unless asked —
while the BLOCKING-before-WARNING order with the stable creation-time
tie-break is produced by the consultant stage's sort of the in-state items:
the sorted output is a permutation, pairwise ordered by the
(severity, created_at) key, never places a BLOCKING item after a WARNING
one, is ordered by creation time within equal severity, and preserves the
input's relative order at equal keys (stability). -/
theorem c3_listing_order (ledger : List ActionItem)
    (enrich : List ActionItem → List ActionItem) (err : Option String) :
    get_action_items ledger true = ledger ∧
    (get_action_items ledger false).Sublist ledger ∧
    (consultant_fixer_node false enrich err ledger).action_items =
      sort_action_items ledger ∧
    (sort_action_items ledger).Perm ledger ∧
    List.Pairwise (fun a b => key_lt b a = false) (sort_action_items ledger) ∧
    List.Pairwise (fun a b => a.severity = ActionSeverity.WARNING →
      b.severity ≠ ActionSeverity.BLOCKING) (sort_action_items ledger) ∧
    List.Pairwise (fun a b => a.severity = b.severity →
      a.created_at ≤ b.created_at) (sort_action_items ledger) ∧
    (∀ k, (sort_action_items ledger).filter (fun i => decide (sort_key i = k)) =
      ledger.filter (fun i => decide (sort_key i = k))) := by
  have himp1 : ∀ {a b : ActionItem}, key_lt b a = false →
      (a.severity = ActionSeverity.WARNING →
        b.severity ≠ ActionSeverity.BLOCKING) := by
    intro a b h hw hb
    rw [← Bool.not_eq_true, key_lt_iff] at h
    simp [sort_key, hw, hb] at h
  have himp2 : ∀ {a b : ActionItem}, key_lt b a = false →
      (a.severity = b.severity → a.created_at ≤ b.created_at) := by
    intro a b h hs
    rw [← Bool.not_eq_true, key_lt_iff] at h
    have hr : (sort_key b).1 = (sort_key a).1 := by simp [sort_key, hs]
    have h2 : (sort_key a).2 = a.created_at := rfl
    have h3 : (sort_key b).2 = b.created_at := rfl
    omega
  refine ⟨rfl, ?_, rfl, sort_action_items_perm ledger,
    sort_action_items_pairwise ledger,
    (sort_action_items_pairwise ledger).imp himp1,
    (sort_action_items_pairwise ledger).imp himp2,
    sort_action_items_stable ledger⟩
  exact List.filter_sublist ledger

/-- C3 counterexample: a reachable stored ledger (an old unresolved WARNING
followed by a BLOCKING item appended on a later retry) is returned by
`get_action_items` in stored order — the WARNING item first — so the
listing is not BLOCKING-before-WARNING. -/
theorem c3_listing_not_sorted :
    get_action_items [item_w, item_b] false = [item_w, item_b] ∧
    item_w.severity = ActionSeverity.WARNING ∧
    item_b.severity = ActionSeverity.BLOCKING ∧
    get_action_items [item_w, item_b] false ≠ [item_b, item_w] := by
  refine ⟨?_, rfl, rfl, ?_⟩ <;> decide

/-- Unfolding: out of fuel, nothing executed, the current node pending. -/
theorem run_attempt_zero (handlers : Node → AgentState → AgentState)
    (cur : Node) (s : AgentState) :
    run_attempt handlers 0 cur s = ([], s, some cur) := rfl

/-- Unfolding: the consultant node executes and the attempt halts (the
declared interrupt point), its routed successor left pending. -/
theorem run_attempt_succ_consultant (handlers : Node → AgentState → AgentState)
    (n : Nat) (s : AgentState) :
    run_attempt handlers (n + 1) Node.consultant_fixer_node s =
      ([Node.consultant_fixer_node],
        handlers Node.consultant_fixer_node s,
        some Node.input_parser_node) := by
  simp [run_attempt, route_v1]

/-- Unfolding: a non-interrupt node whose edge ends the graph. -/
theorem run_attempt_succ_none (handlers : Node → AgentState → AgentState)
    (n : Nat) (cur : Node) (s : AgentState)
    (hc : cur ≠ Node.consultant_fixer_node)
    (hr : route_v1 cur (handlers cur s) = none) :
    run_attempt handlers (n + 1) cur s = ([cur], handlers cur s, none) := by
  simp [run_attempt, hc, hr]

/-- Unfolding: a non-interrupt node advancing along its edge. -/
theorem run_attempt_succ_some (handlers : Node → AgentState → AgentState)
    (n : Nat) (cur nxt : Node) (s : AgentState)
    (hc : cur ≠ Node.consultant_fixer_node)
    (hr : route_v1 cur (handlers cur s) = some nxt) :
    run_attempt handlers (n + 1) cur s =
      ((cur :: (run_attempt handlers n nxt (handlers cur s)).1),
        (run_attempt handlers n nxt (handlers cur s)).2) := by
  simp [run_attempt, hc, hr]

/-- In one execution attempt nothing follows the consultant node in the
executed trace. -/
theorem run_attempt_nothing_after_consultant
    (handlers : Node → AgentState → AgentState) (fuel : Nat) :
    ∀ (cur : Node) (s : AgentState) (tr1 tr2 : List Node),
      (run_attempt handlers fuel cur s).1 =
        tr1 ++ Node.consultant_fixer_node :: tr2 → tr2 = [] := by
  induction fuel with
  | zero =>
    intro cur s tr1 tr2 h
    rw [run_attempt_zero] at h
    exact absurd h.symm (List.append_ne_nil_of_right_ne_nil _ (by simp))
  | succ n ih =>
    intro cur s tr1 tr2 h
    by_cases hc : cur = Node.consultant_fixer_node
    · subst hc
      rw [run_attempt_succ_consultant] at h
      cases tr1 with
      | nil =>
        simp only [List.nil_append, List.cons.injEq] at h
        exact h.2.symm
      | cons a tr1 =>
        simp only [List.cons_append, List.cons.injEq] at h
        exact absurd h.2.symm (List.append_ne_nil_of_right_ne_nil _ (by simp))
    · cases hr : route_v1 cur (handlers cur s) with
      | none =>
        rw [run_attempt_succ_none handlers n cur s hc hr] at h
        cases tr1 with
        | nil =>
          simp only [List.nil_append, List.cons.injEq] at h
          exact absurd h.1 hc
        | cons a tr1 =>
          simp only [List.cons_append, List.cons.injEq] at h
          exact absurd h.2.symm (List.append_ne_nil_of_right_ne_nil _ (by simp))
      | some nxt =>
        rw [run_attempt_succ_some handlers n cur nxt s hc hr] at h
        cases tr1 with
        | nil =>
          simp only [List.nil_append, List.cons.injEq] at h
          exact absurd h.1 hc
        | cons a tr1 =>
          simp only [List.cons_append, List.cons.injEq] at h
          exact ih nxt (handlers cur s) tr1 tr2 h.2

/-- When an attempt's trace ends at the consultant node, the pending node
left for the next resume is the input node. -/
theorem run_attempt_pending_input (handlers : Node → AgentState → AgentState)
    (fuel : Nat) :
    ∀ (cur : Node) (s : AgentState),
      (run_attempt handlers fuel cur s).1.getLast? =
        some Node.consultant_fixer_node →
      (run_attempt handlers fuel cur s).2.2 = some Node.input_parser_node := by
  induction fuel with
  | zero =>
    intro cur s h
    rw [run_attempt_zero] at h
    simp at h
  | succ n ih =>
    intro cur s h
    by_cases hc : cur = Node.consultant_fixer_node
    · subst hc
      rw [run_attempt_succ_consultant]
    · cases hr : route_v1 cur (handlers cur s) with
      | none =>
        rw [run_attempt_succ_none handlers n cur s hc hr] at h
        simp at h
        exact absurd h hc
      | some nxt =>
        rw [run_attempt_succ_some handlers n cur nxt s hc hr] at h ⊢
        cases htr : (run_attempt handlers n nxt (handlers cur s)).1 with
        | nil =>
          rw [htr] at h
          simp at h
          exact absurd h hc
        | cons a l =>
          rw [htr] at h
          rw [List.getLast?_cons_cons] at h
          exact ih nxt (handlers cur s) (by rw [htr]; exact h)

/-- C7: within one execution attempt the trace never continues past the
consultant (FIXER) node — in particular the input stage never re-runs in
the same attempt; when the attempt halts at the consultant, the input node
is left pending for an external resume, and the job boundary records the
interrupted attempt as NEEDS_REVIEW. -/
theorem c7_fixer_interrupts (handlers : Node → AgentState → AgentState)
    (fuel : Nat) (cur : Node) (s : AgentState) (job : Job) (fs : FinalState) :
    (∀ tr1 tr2, (run_attempt handlers fuel cur s).1 =
        tr1 ++ Node.consultant_fixer_node :: tr2 → tr2 = []) ∧
    ((run_attempt handlers fuel cur s).1.getLast? =
        some Node.consultant_fixer_node →
      (run_attempt handlers fuel cur s).2.2 = some Node.input_parser_node) ∧
    (run_onboarding_workflow job (Except.ok (fs, true)) (Except.ok ())).status =
      JobStatus.NEEDS_REVIEW := by
  refine ⟨fun tr1 tr2 h =>
    run_attempt_nothing_after_consultant handlers fuel cur s tr1 tr2 h,
    run_attempt_pending_input handlers fuel cur s, ?_⟩
  simp [run_onboarding_workflow, update_job]

/-- C8: the tool boundary always returns a structured `ToolResult`: an
unregistered name fails with an error message; a name outside the calling
node's allow-list fails with an error message; an implementation that
raises yields success (equal to) false with the exception message, never a
propagated exception; a successful real or mocked call records the elapsed
time and whether a mock was used; and every unsuccessful result carries an
error message. -/
theorem c8_tool_boundary (reg : ToolRegistry) (available_tools : List String)
    (node_name : String) (sim_skip : Bool) (name : String) (inputs : ToolData)
    (use_mock : Option Bool) (elapsed : Nat) :
    (lookup_assoc reg.tools name = none →
      (registry_call reg name inputs use_mock elapsed).success = false ∧
      (registry_call reg name inputs use_mock elapsed).error ≠ none) ∧
    (¬ name ∈ available_tools →
      (call_tool available_tools node_name sim_skip reg name inputs use_mock
        elapsed).success = false ∧
      (call_tool available_tools node_name sim_skip reg name inputs use_mock
        elapsed).error ≠ none) ∧
    (∀ tdef f e, lookup_assoc reg.tools name = some tdef →
      use_mock = some false → lookup_assoc reg.impls name = some f →
      f inputs = Except.error e →
      registry_call reg name inputs use_mock elapsed =
        { tool_name := name, success := false, error := some e
          execution_time_ms := some elapsed, was_mocked := false }) ∧
    (∀ tdef f d, lookup_assoc reg.tools name = some tdef →
      use_mock = some false → lookup_assoc reg.impls name = some f →
      f inputs = Except.ok d →
      registry_call reg name inputs use_mock elapsed =
        { tool_name := name, success := true, data := some d
          execution_time_ms := some elapsed, was_mocked := false }) ∧
    (∀ tdef g d, lookup_assoc reg.tools name = some tdef →
      use_mock = some true → lookup_assoc reg.mock_impls name = some g →
      g inputs = Except.ok d →
      registry_call reg name inputs use_mock elapsed =
        { tool_name := name, success := true, data := some d
          execution_time_ms := some elapsed, was_mocked := true }) ∧
    ((registry_call reg name inputs use_mock elapsed).success = false →
      (registry_call reg name inputs use_mock elapsed).error ≠ none) := by
  refine ⟨?_, ?_, ?_, ?_, ?_, ?_⟩
  · intro h
    simp [registry_call, h]
  · intro h
    simp [call_tool, h]
  · intro tdef f e hlt hum himpl hf
    simp [registry_call, hlt, hum, himpl, hf]
  · intro tdef f d hlt hum himpl hf
    simp [registry_call, hlt, hum, himpl, hf]
  · intro tdef g d hlt hum hmock hg
    simp [registry_call, hlt, hum, hmock, hg]
  · cases hlt : lookup_assoc reg.tools name with
    | none => simp [registry_call, hlt]
    | some tdef =>
      cases hum : use_mock.getD reg.use_mocks with
      | true =>
        cases hm : lookup_assoc reg.mock_impls name with
        | some g =>
          cases hg : g inputs with
          | ok d => simp [registry_call, hlt, hum, hm, hg]
          | error e => simp [registry_call, hlt, hum, hm, hg]
        | none =>
          cases hmo : tdef.mock_output with
          | none => simp [registry_call, hlt, hum, hm, hmo]
          | some d =>
            by_cases hde : d.isEmpty <;>
              simp [registry_call, hlt, hum, hm, hmo, hde]
      | false =>
        cases hi : lookup_assoc reg.impls name with
        | none => simp [registry_call, hlt, hum, hi]
        | some f =>
          cases hf : f inputs with
          | ok d => simp [registry_call, hlt, hum, hi, hf]
          | error e => simp [registry_call, hlt, hum, hi, hf]

/-- A one-tool registry whose implementation always raises, used to
instantiate the boundary contract. -/
def sample_registry : ToolRegistry :=
  { tools := [("verify_pan", { name := "verify_pan" })]
    impls := [("verify_pan", fun _ => Except.error "network down")]
    mock_impls := [("verify_pan", fun _ => Except.ok [("valid", "true")])]
    use_mocks := false }

/-- C8 witness: on a concrete registry the unregistered name, the
disallowed name, the raising implementation and the successful mock all
produce the structured results the contract states. -/
theorem c8_tool_boundary_witness :
    ((registry_call sample_registry "nope" [] none 5).success = false ∧
      (registry_call sample_registry "nope" [] none 5).error ≠ none) ∧
    ((call_tool [] "bank_verifier_node" false sample_registry "verify_pan" []
        none 5).success = false ∧
      (call_tool [] "bank_verifier_node" false sample_registry "verify_pan" []
        none 5).error ≠ none) ∧
    registry_call sample_registry "verify_pan" [] (some false) 5 =
      { tool_name := "verify_pan", success := false
        error := some "network down", execution_time_ms := some 5
        was_mocked := false } ∧
    registry_call sample_registry "verify_pan" [] (some true) 5 =
      { tool_name := "verify_pan", success := true
        data := some [("valid", "true")], execution_time_ms := some 5
        was_mocked := true } := by
  have h := c8_tool_boundary sample_registry [] "bank_verifier_node" false
    "verify_pan" [] (some false) 5
  have h2 := c8_tool_boundary sample_registry [] "bank_verifier_node" false
    "nope" [] none 5
  have h3 := c8_tool_boundary sample_registry [] "bank_verifier_node" false
    "verify_pan" [] (some true) 5
  exact ⟨h2.1 rfl, h.2.1 (by simp),
    h.2.2.1 { name := "verify_pan" } (fun _ => Except.error "network down")
      "network down" rfl rfl rfl rfl,
    h3.2.2.2.2.1 { name := "verify_pan" }
      (fun _ => Except.ok [("valid", "true")]) [("valid", "true")]
      rfl rfl rfl rfl⟩
